import Mathlib

/-!
Verification of the media-metadata-fix core (src/media.rs) against its
natural-language specification.

The embedding below follows `src/media.rs`:
* `dms`, `lat_ref`, `lon_ref`, `gpsAltitude`, `gpsAltitudeRef` embed the
  coordinate conversions inside `create_exif_data` (lines 177-239).  The
  Rust code computes with `f64`; here the same formulas are evaluated over
  exact rationals (`ℚ`), with the Rust `as u32` float-to-integer cast
  modelled by its saturating-truncation semantics (`f64_as_u32`).
* `create_exif_fields` embeds the ordered list of EXIF fields pushed to the
  writer (lines 168-262); `create_exif_data` the final byte block
  (lines 264-272).
* `insert_exif`, `scanLoop`, `update_jpeg_metadata` embed the JPEG
  marker-segment rewriter (lines 43-159, 275-282).  Bytes are `Nat` values
  below 256; the scan loop carries the index `i`, the accumulated output and
  the `exif_inserted` flag exactly as the Rust loop does, with an explicit
  fuel argument (the loop advances `i` by at least one per iteration, so
  `jpeg_data.length` fuel always suffices).
* `update_png_metadata` models the observable effect order of the PNG path
  (lines 7-41) over an environment saying which external calls succeed.
-/

namespace MediaMetadataFix

/-- EXIF rational number: `num`/`denom` pair of u32 values (exif crate
`Rational`, as used in media.rs). -/
structure Rational where
  num : Nat
  denom : Nat
deriving Repr, DecidableEq

/-- Rust `as u32` cast applied to an f64 value, here evaluated on the exact
rational the f64 expression denotes: truncation toward zero, saturating into
`[0, 2^32-1]` (negative values give 0, values of 2^32 or more give
4294967295). -/
def f64_as_u32 (x : ℚ) : Nat := min (Int.toNat ⌊x⌋) 4294967295

/-- Degrees-minutes-seconds conversion of one signed coordinate, from
`create_exif_data` (media.rs lines 177-199 for latitude, 201-223 for
longitude, identical code): whole degrees and whole minutes with
denominator 1, seconds scaled by 1000000 with denominator 1000000, all from
the magnitude `|v|`. -/
def dms (v : ℚ) : List Rational :=
  let deg : ℚ := (⌊|v|⌋ : ℚ)
  let mins : ℚ := (|v| - deg) * 60
  let min_whole : ℚ := (⌊mins⌋ : ℚ)
  let sec : ℚ := (mins - min_whole) * 60
  [⟨f64_as_u32 deg, 1⟩, ⟨f64_as_u32 min_whole, 1⟩,
   ⟨f64_as_u32 (sec * 1000000), 1000000⟩]

/-- Latitude reference letter (media.rs line 182). -/
def lat_ref (latitude : ℚ) : String := if latitude ≥ 0 then "N" else "S"

/-- Longitude reference letter (media.rs line 206). -/
def lon_ref (longitude : ℚ) : String := if longitude ≥ 0 then "E" else "W"

/-- GPSAltitude value (media.rs lines 225-232): a single rational,
numerator `(|altitude| * 1000) as u32`, denominator 1000. -/
def gpsAltitude (altitude : ℚ) : List Rational :=
  [⟨f64_as_u32 (|altitude| * 1000), 1000⟩]

/-- GPSAltitudeRef byte (media.rs lines 234-239): 0 above sea level,
1 below. -/
def gpsAltitudeRef (altitude : ℚ) : Nat := if altitude ≥ 0 then 0 else 1

/-- Modelled from the spec: the chrono crate (not part of src/) converts the
epoch-second timestamp to a UTC civil date; this is the standard proleptic
Gregorian days-to-civil-date algorithm. Returns (year, month, day). -/
def civilFromDays (z0 : Int) : Int × Nat × Nat :=
  let z : Int := z0 + 719468
  let era : Int := z.ediv 146097
  let doe : Nat := (z - era * 146097).toNat
  let yoe : Nat := (doe - doe / 1460 + doe / 36524 - doe / 146096) / 365
  let y : Int := (yoe : Int) + era * 400
  let doy : Nat := doe - (365 * yoe + yoe / 4 - yoe / 100)
  let mp : Nat := (5 * doy + 2) / 153
  let d : Nat := doy - (153 * mp + 2) / 5 + 1
  let m : Nat := if mp < 10 then mp + 3 else mp - 9
  (if m ≤ 2 then y + 1 else y, m, d)

/-- Two-digit zero-padded decimal. -/
def pad2 (n : Nat) : String := if n < 10 then "0" ++ toString n else toString n

/-- Four-digit zero-padded decimal. -/
def pad4 (n : Nat) : String :=
  if n < 10 then "000" ++ toString n
  else if n < 100 then "00" ++ toString n
  else if n < 1000 then "0" ++ toString n
  else toString n

/-- Modelled from the spec: chrono formatting of a UTC timestamp with the
format string used at media.rs line 241, producing `YYYY:MM:DD HH:MM:SS`. -/
def formatUtc (t : Int) : String :=
  let days : Int := t.ediv 86400
  let secs : Nat := (t.emod 86400).toNat
  let ymd := civilFromDays days
  pad4 ymd.1.toNat ++ ":" ++ pad2 ymd.2.1 ++ ":" ++ pad2 ymd.2.2 ++ " " ++
    pad2 (secs / 3600) ++ ":" ++ pad2 (secs % 3600 / 60) ++ ":" ++ pad2 (secs % 60)

/-- EXIF tags pushed by create_exif_data (exif crate `Tag`). -/
inductive ExifTag
  | GPSVersionID
  | GPSLatitudeRef
  | GPSLatitude
  | GPSLongitudeRef
  | GPSLongitude
  | GPSAltitude
  | GPSAltitudeRef
  | DateTime
  | DateTimeOriginal
  | DateTimeDigitized
deriving Repr, DecidableEq

/-- EXIF field values as used in create_exif_data (exif crate `Value`). -/
inductive ExifValue
  | Byte (bytes : List Nat)
  | Ascii (strs : List String)
  | Rational (rs : List Rational)
deriving Repr, DecidableEq

/-- One EXIF field: tag, IFD number (always In::PRIMARY = 0 in media.rs),
and value (exif crate `Field`). -/
structure Field where
  tag : ExifTag
  ifd_num : Nat
  value : ExifValue
deriving Repr, DecidableEq

/-- The ordered field list pushed to the EXIF writer by `create_exif_data`
(media.rs lines 168-262), with the datetime string shared by the three
date-time tags (lines 241-262). -/
def create_exif_fields (latitude longitude altitude : ℚ) (t : Int) : List Field :=
  let datetime_str := formatUtc t
  [⟨.GPSVersionID, 0, .Byte [2, 3, 0, 0]⟩,
   ⟨.GPSLatitudeRef, 0, .Ascii [lat_ref latitude]⟩,
   ⟨.GPSLatitude, 0, .Rational (dms latitude)⟩,
   ⟨.GPSLongitudeRef, 0, .Ascii [lon_ref longitude]⟩,
   ⟨.GPSLongitude, 0, .Rational (dms longitude)⟩,
   ⟨.GPSAltitude, 0, .Rational (gpsAltitude altitude)⟩,
   ⟨.GPSAltitudeRef, 0, .Byte [gpsAltitudeRef altitude]⟩,
   ⟨.DateTime, 0, .Ascii [datetime_str]⟩,
   ⟨.DateTimeOriginal, 0, .Ascii [datetime_str]⟩,
   ⟨.DateTimeDigitized, 0, .Ascii [datetime_str]⟩]

/-- Value carried by the first field with the given tag, if any. -/
def fieldValue (fs : List Field) (tg : ExifTag) : Option ExifValue :=
  (fs.find? (fun f => f.tag = tg)).map Field.value

/-- Big-endian 4-byte encoding of a u32. -/
def u32be (n : Nat) : List Nat :=
  [n / 16777216 % 256, n / 65536 % 256, n / 256 % 256, n % 256]

/-- Modelled from the spec: numeric tag codes of the EXIF/TIFF tags used
(GPS sub-directory tag numbers and the three date-time tag numbers). -/
def tagCode : ExifTag → Nat
  | .GPSVersionID => 0
  | .GPSLatitudeRef => 1
  | .GPSLatitude => 2
  | .GPSLongitudeRef => 3
  | .GPSLongitude => 4
  | .GPSAltitudeRef => 5
  | .GPSAltitude => 6
  | .DateTime => 0x0132
  | .DateTimeOriginal => 0x9003
  | .DateTimeDigitized => 0x9004

/-- Byte encoding of one field value in the modelled TIFF writer. -/
def encodeValue : ExifValue → List Nat
  | .Byte bs => bs
  | .Ascii ss => ss.flatMap (fun s => (s.toList.map Char.toNat) ++ [0])
  | .Rational rs => rs.flatMap (fun r => u32be r.num ++ u32be r.denom)

/-- Modelled from the spec: the third-party exif crate writer (not part of
src/) serializes the pushed fields into a self-contained TIFF block; the
spec requires only that this serialization is a fixed deterministic function
of the field list, which this model realizes as a direct concatenation of
per-field encodings. -/
def writeTiff (fs : List Field) : List Nat :=
  fs.flatMap (fun f => u32be (tagCode f.tag) ++ encodeValue f.value)

/-- EXIF block construction (media.rs lines 162-273): serialized TIFF data
prefixed with the 6-byte signature `Exif\0\0` (lines 268-270). -/
def create_exif_data (latitude longitude altitude : ℚ) (t : Int) : List Nat :=
  [0x45, 0x78, 0x69, 0x66, 0, 0] ++
    writeTiff (create_exif_fields latitude longitude altitude t)

lemma f64_as_u32_eq_toNat_floor {x : ℚ} (hx : x < 4294967296) :
    f64_as_u32 x = Int.toNat ⌊x⌋ := by
  have h1 : ⌊x⌋ < (4294967296 : ℤ) := by
    rw [Int.floor_lt]
    exact_mod_cast hx
  unfold f64_as_u32
  exact Nat.min_eq_left (by omega)

lemma dms_eval {v : ℚ} (hv : |v| ≤ 180) :
    dms v = [⟨Int.toNat ⌊|v|⌋, 1⟩,
             ⟨Int.toNat ⌊Int.fract |v| * 60⌋, 1⟩,
             ⟨Int.toNat ⌊Int.fract (Int.fract |v| * 60) * 60 * 1000000⌋, 1000000⟩] := by
  have hfl1 : ⌊|v|⌋ ≤ 180 := by
    have := Int.floor_le_floor (α := ℚ) hv
    simpa using this
  have e1 : f64_as_u32 ((⌊|v|⌋ : ℚ)) = Int.toNat ⌊|v|⌋ := by
    rw [f64_as_u32_eq_toNat_floor, Int.floor_intCast]
    have h2 : ((⌊|v|⌋ : ℚ)) ≤ 180 := by exact_mod_cast hfl1
    linarith
  have hm1 : Int.fract |v| * 60 < 4294967296 := by
    nlinarith [Int.fract_lt_one |v|, Int.fract_nonneg |v|]
  have e2 : f64_as_u32 ((⌊Int.fract |v| * 60⌋ : ℚ)) = Int.toNat ⌊Int.fract |v| * 60⌋ := by
    rw [f64_as_u32_eq_toNat_floor, Int.floor_intCast]
    have h3 : ⌊Int.fract |v| * 60⌋ < (4294967296 : ℤ) := by
      rw [Int.floor_lt]
      exact_mod_cast hm1
    exact_mod_cast h3
  have e3 : f64_as_u32 (Int.fract (Int.fract |v| * 60) * 60 * 1000000)
      = Int.toNat ⌊Int.fract (Int.fract |v| * 60) * 60 * 1000000⌋ := by
    apply f64_as_u32_eq_toNat_floor
    nlinarith [Int.fract_lt_one (Int.fract |v| * 60),
      Int.fract_nonneg (Int.fract |v| * 60)]
  simp only [dms]
  rw [Int.self_sub_floor, Int.self_sub_floor, e1, e2, e3]

set_option maxRecDepth 8000 in
/-- C5: for in-range latitude and longitude the conversion yields whole
degrees (denominator 1), whole minutes (denominator 1), and seconds scaled
by 1000000 over denominator 1000000, every component computed from the
magnitude of the coordinate; the reference letter is N/S for latitude and
E/W for longitude by sign; latitude 37.7749 gives degrees 37, minutes 46,
seconds 29640000/1000000 = 29.64, reference N. -/
theorem coordinate_conversion_dms (lat lon : ℚ)
    (hlat1 : -90 ≤ lat) (hlat2 : lat ≤ 90)
    (hlon1 : -180 ≤ lon) (hlon2 : lon ≤ 180) :
    (dms lat = [⟨Int.toNat ⌊|lat|⌋, 1⟩,
                ⟨Int.toNat ⌊Int.fract |lat| * 60⌋, 1⟩,
                ⟨Int.toNat ⌊Int.fract (Int.fract |lat| * 60) * 60 * 1000000⌋, 1000000⟩]) ∧
    (dms lon = [⟨Int.toNat ⌊|lon|⌋, 1⟩,
                ⟨Int.toNat ⌊Int.fract |lon| * 60⌋, 1⟩,
                ⟨Int.toNat ⌊Int.fract (Int.fract |lon| * 60) * 60 * 1000000⌋, 1000000⟩]) ∧
    lat_ref lat = (if 0 ≤ lat then "N" else "S") ∧
    lon_ref lon = (if 0 ≤ lon then "E" else "W") ∧
    dms (377749 / 10000 : ℚ) = [⟨37, 1⟩, ⟨46, 1⟩, ⟨29640000, 1000000⟩] ∧
    lat_ref (377749 / 10000 : ℚ) = "N" := by
  refine ⟨dms_eval (abs_le.mpr ⟨by linarith, by linarith⟩),
          dms_eval (abs_le.mpr ⟨hlon1, hlon2⟩), rfl, rfl, ?_, ?_⟩
  · have ha : |(377749 / 10000 : ℚ)| = 377749 / 10000 := abs_of_nonneg (by norm_num)
    unfold dms f64_as_u32
    rw [ha]
    norm_num [Int.fract]
    exact ⟨rfl, rfl, rfl⟩
  · rw [lat_ref, if_pos (by norm_num)]

/-- Witness for coordinate_conversion_dms at latitude 37.7749 and
longitude 151.2093. -/
theorem coordinate_conversion_dms_witness :
    dms (377749 / 10000 : ℚ) = [⟨37, 1⟩, ⟨46, 1⟩, ⟨29640000, 1000000⟩] ∧
    lat_ref (377749 / 10000 : ℚ) = "N" := by
  have h := coordinate_conversion_dms (377749 / 10000) (1512093 / 10000)
    (by norm_num) (by norm_num) (by norm_num) (by norm_num)
  exact ⟨h.2.2.2.2.1, h.2.2.2.2.2⟩

/-- C6 counterexample: at altitude 5000000 (meters) the float-to-u32 cast
saturates, so the numerator is 4294967295 and does not encode
|altitude| * 1000 = 5000000000; the claim as stated quantifies over every
altitude value. -/
theorem altitude_saturation_counterexample :
    gpsAltitude (5000000 : ℚ) = [⟨4294967295, 1000⟩] ∧
    (4294967295 : Nat) ≠ 5000000 * 1000 := by
  constructor
  · have ha : |(5000000 : ℚ)| = 5000000 := abs_of_nonneg (by norm_num)
    unfold gpsAltitude f64_as_u32
    rw [ha]
    norm_num
  · norm_num

/-- C6 (amended): for every altitude whose magnitude in millimeters fits a
u32 (|altitude| * 1000 < 2^32), the conversion yields exactly one Rational,
with numerator the truncation of |altitude| * 1000 and denominator 1000,
and the reference byte is 0 for altitude ≥ 0, else 1; altitude -5.2 gives
reference 1, numerator 5200, denominator 1000. -/
theorem altitude_conversion (alt : ℚ) (hb : |alt| * 1000 < 4294967296) :
    gpsAltitude alt = [⟨Int.toNat ⌊|alt| * 1000⌋, 1000⟩] ∧
    (gpsAltitude alt).length = 1 ∧
    gpsAltitudeRef alt = (if 0 ≤ alt then 0 else 1) ∧
    gpsAltitude (-26 / 5 : ℚ) = [⟨5200, 1000⟩] ∧
    gpsAltitudeRef (-26 / 5 : ℚ) = 1 := by
  refine ⟨?_, ?_, rfl, ?_, ?_⟩
  · unfold gpsAltitude
    rw [f64_as_u32_eq_toNat_floor hb]
  · rfl
  · have ha : |(-26 / 5 : ℚ)| = 26 / 5 := by
      rw [abs_of_nonpos (by norm_num)]
      norm_num
    unfold gpsAltitude f64_as_u32
    rw [ha]
    norm_num
    rfl
  · rw [gpsAltitudeRef, if_neg (by norm_num)]

/-- Witness for altitude_conversion at altitude -5.2. -/
theorem altitude_conversion_witness :
    |(-26 / 5 : ℚ)| * 1000 < 4294967296 ∧
    gpsAltitude (-26 / 5 : ℚ) = [⟨5200, 1000⟩] ∧
    gpsAltitudeRef (-26 / 5 : ℚ) = 1 := by
  have hb : |(-26 / 5 : ℚ)| * 1000 < 4294967296 := by
    have ha : |(-26 / 5 : ℚ)| = 26 / 5 := by
      rw [abs_of_nonpos (by norm_num)]
      norm_num
    rw [ha]
    norm_num
  have h := altitude_conversion (-26 / 5) hb
  exact ⟨hb, h.2.2.2.1, h.2.2.2.2⟩

/-- C7: create_exif_data builds one shared ASCII date-time string, in the
format YYYY:MM:DD HH:MM:SS, and stores it in the DateTime, DateTimeOriginal
and DateTimeDigitized tags alike; at epoch 1609459200 that string is
`2021:01:01 00:00:00` in all three tags. -/
theorem datetime_tags_identical (lat lon alt : ℚ) (t : Int) :
    fieldValue (create_exif_fields lat lon alt t) .DateTime
      = some (.Ascii [formatUtc t]) ∧
    fieldValue (create_exif_fields lat lon alt t) .DateTimeOriginal
      = some (.Ascii [formatUtc t]) ∧
    fieldValue (create_exif_fields lat lon alt t) .DateTimeDigitized
      = some (.Ascii [formatUtc t]) ∧
    formatUtc 1609459200 = "2021:01:01 00:00:00" :=
  ⟨rfl, rfl, rfl, by decide⟩

/-- C9: the EXIF block construction is deterministic — equal position,
altitude and timestamp inputs give byte-identical blocks — and every block
begins with the 6-byte signature Exif NUL NUL, that is bytes
69 120 105 102 0 0. -/
theorem exif_block_deterministic
    (lat1 lon1 alt1 : ℚ) (t1 : Int) (lat2 lon2 alt2 : ℚ) (t2 : Int)
    (hlat : lat1 = lat2) (hlon : lon1 = lon2) (halt : alt1 = alt2) (ht : t1 = t2) :
    create_exif_data lat1 lon1 alt1 t1 = create_exif_data lat2 lon2 alt2 t2 ∧
    (create_exif_data lat1 lon1 alt1 t1).take 6 = [0x45, 0x78, 0x69, 0x66, 0, 0] := by
  subst hlat hlon halt ht
  exact ⟨rfl, rfl⟩

/-- Witness for exif_block_deterministic at a concrete position, altitude
and timestamp. -/
theorem exif_block_deterministic_witness :
    create_exif_data 1 2 3 4 = create_exif_data 1 2 3 4 ∧
    (create_exif_data 1 2 3 4).take 6 = [0x45, 0x78, 0x69, 0x66, 0, 0] :=
  exif_block_deterministic 1 2 3 4 1 2 3 4 rfl rfl rfl rfl

/-- Bytes appended by insert_exif (media.rs lines 275-282): marker bytes
0xFF 0xE1, the big-endian 2-byte length `exif_buf.len() + 2` (each byte
reduced mod 256 as by the `as u8` casts), then the EXIF block itself. -/
def insert_exif (exif_buf : List Nat) : List Nat :=
  [0xFF, 0xE1, (exif_buf.length + 2) / 256 % 256, (exif_buf.length + 2) % 256] ++
    exif_buf

/-- The while loop of update_jpeg_metadata (media.rs lines 67-153), carrying
the scan index `i`, the accumulated `output_data` and the `exif_inserted`
flag. The match arms appear in the Rust priority order: 0xE1, 0xE0, 0xDA,
the 0xE2..=0xEF guard, the 0xC0..=0xFE (not 0xD8/0xD9) guard, and the
default single-byte copy. The 0xE1 arm advances `i` by `2 + length`
twice, exactly as the two identical statements at lines 91-92 do. `fuel`
bounds the number of iterations; each iteration strictly increases `i`, so
`data.length` fuel is never exhausted when starting from index 2. -/
def scanLoop (exif_buf : List Nat) :
    Nat → List Nat → Nat → List Nat → Bool → List Nat
  | 0, _, _, out, _ => out
  | fuel + 1, data, i, out, inserted =>
    if i ≥ data.length then out
    else if i + 1 ≥ data.length ∨ data.getD i 0 ≠ 0xFF then
      (if inserted then out else out ++ insert_exif exif_buf) ++ data.drop i
    else
      let marker := data.getD (i + 1) 0
      if marker = 0xE1 then
        if i + 3 ≥ data.length then out ++ data.drop i
        else
          let length := data.getD (i + 2) 0 * 256 + data.getD (i + 3) 0
          if i + 2 + length > data.length then out ++ data.drop i
          else scanLoop exif_buf fuel data (i + (2 + length) + (2 + length)) out inserted
      else if marker = 0xE0 then
        if i + 3 ≥ data.length then out ++ data.drop i
        else
          let length := data.getD (i + 2) 0 * 256 + data.getD (i + 3) 0
          if i + 2 + length > data.length then out ++ data.drop i
          else
            let out2 := out ++ (data.drop i).take (2 + length)
            scanLoop exif_buf fuel data (i + 2 + length)
              (if inserted then out2 else out2 ++ insert_exif exif_buf) true
      else if marker = 0xDA then
        (if inserted then out else out ++ insert_exif exif_buf) ++ data.drop i
      else if 0xE2 ≤ marker ∧ marker ≤ 0xEF then
        if i + 3 ≥ data.length then out ++ data.drop i
        else
          let length := data.getD (i + 2) 0 * 256 + data.getD (i + 3) 0
          if i + 2 + length > data.length then out ++ data.drop i
          else scanLoop exif_buf fuel data (i + 2 + length)
            (out ++ (data.drop i).take (2 + length)) inserted
      else if (0xC0 ≤ marker ∧ marker ≤ 0xFE) ∧ marker ≠ 0xD8 ∧ marker ≠ 0xD9 then
        if i + 3 ≥ data.length then out ++ data.drop i
        else
          let length := data.getD (i + 2) 0 * 256 + data.getD (i + 3) 0
          if i + 2 + length > data.length then out ++ data.drop i
          else scanLoop exif_buf fuel data (i + 2 + length)
            (out ++ (data.drop i).take (2 + length)) inserted
      else
        scanLoop exif_buf fuel data (i + 1) (out ++ [data.getD i 0]) inserted

/-- update_jpeg_metadata (media.rs lines 43-159), as a function from the
input bytes and the EXIF block to the produced output bytes: `none` is the
`Invalid JPEG file` error (nothing written), `some out` is the byte
sequence written to the destination. -/
def update_jpeg_metadata (jpeg_data exif_buf : List Nat) : Option (List Nat) :=
  if jpeg_data.length < 2 ∨ jpeg_data.getD 0 0 ≠ 0xFF ∨ jpeg_data.getD 1 0 ≠ 0xD8
  then none
  else some (scanLoop exif_buf jpeg_data.length jpeg_data 2 (jpeg_data.take 2) false)

/-- Number of adjacent 0xFF 0xE1 byte pairs, i.e. of APP1 metadata segment
markers, in a byte sequence. -/
def app1MarkerCount (l : List Nat) : Nat :=
  (l.zip l.tail).countP (fun p => p.1 = 0xFF && p.2 = 0xE1)

/-- C1 (evaluation at the failing input): on the valid JPEG consisting of
SOI, one APP1 segment of declared length 4, SOS and EOI, the rewriter
outputs only the two SOI bytes. The 0xE1 arm advances the index by
`2 + length` twice (the duplicated statement at media.rs lines 91-92), so
the scan jumps from offset 2 to offset 14, past the 12-byte input; the loop
exits without ever inserting the new metadata segment, and the SOS, entropy
data and EOI are lost as well. The input holds one APP1 marker, the output
holds zero, while the claim requires exactly one. -/
theorem app1_double_skip_failing_input :
    update_jpeg_metadata
        [0xFF, 0xD8, 0xFF, 0xE1, 0x00, 0x04, 0x00, 0x00, 0xFF, 0xDA, 0xFF, 0xD9]
        [1, 2, 3]
      = some [0xFF, 0xD8] ∧
    app1MarkerCount
        [0xFF, 0xD8, 0xFF, 0xE1, 0x00, 0x04, 0x00, 0x00, 0xFF, 0xDA, 0xFF, 0xD9] = 1 ∧
    app1MarkerCount [0xFF, 0xD8] = 0 := by
  decide

/-- C8: an input shorter than 2 bytes, or whose first two bytes are not the
start-of-image marker 0xFF 0xD8, makes the JPEG rewriter fail with the
invalid-format error and produce no output bytes. -/
theorem jpeg_invalid_header_rejected (data exif : List Nat)
    (h : data.length < 2 ∨ data.getD 0 0 ≠ 0xFF ∨ data.getD 1 0 ≠ 0xD8) :
    update_jpeg_metadata data exif = none := by
  unfold update_jpeg_metadata
  rw [if_pos h]

/-- Witness for jpeg_invalid_header_rejected on a 1-byte input. -/
theorem jpeg_invalid_header_rejected_witness :
    ([0x12] : List Nat).length < 2 ∧ update_jpeg_metadata [0x12] [] = none :=
  ⟨by decide, jpeg_invalid_header_rejected [0x12] [] (Or.inl (by decide))⟩

/-- C4 counterexample: on SOI followed by an APP0 whose declared length
0x00FF overruns the 6-byte input, the rewriter copies the remainder
verbatim and terminates WITHOUT first inserting the still-pending metadata
segment — the output carries no APP1 marker at all, refuting the claim's
insert-first requirement at this truncation boundary. -/
theorem truncation_no_insert_counterexample :
    update_jpeg_metadata [0xFF, 0xD8, 0xFF, 0xE0, 0x00, 0xFF] [1, 2]
      = some [0xFF, 0xD8, 0xFF, 0xE0, 0x00, 0xFF] ∧
    app1MarkerCount [0xFF, 0xD8, 0xFF, 0xE0, 0x00, 0xFF] = 0 := by
  decide

/-- C4 (amended): when the scan stands on a marker-prefixed segment
(0xFF then a marker in 0xC0..0xFE other than SOI, EOI, SOS) whose header is
cut short (`i + 3 ≥ len`) or whose declared length runs past the end of the
buffer, the loop copies the remaining bytes verbatim and terminates; no
metadata segment is inserted at this boundary even when insertion is still
pending. -/
theorem truncation_copies_rest_verbatim
    (data exif out : List Nat) (i fuel : Nat) (inserted : Bool)
    (hi : i < data.length)
    (hff : data.getD i 0 = 0xFF)
    (hm1 : 0xC0 ≤ data.getD (i + 1) 0) (hm2 : data.getD (i + 1) 0 ≤ 0xFE)
    (hm3 : data.getD (i + 1) 0 ≠ 0xD8) (hm4 : data.getD (i + 1) 0 ≠ 0xD9)
    (hm5 : data.getD (i + 1) 0 ≠ 0xDA)
    (htr : i + 3 ≥ data.length ∨
      i + 2 + (data.getD (i + 2) 0 * 256 + data.getD (i + 3) 0) > data.length) :
    scanLoop exif (fuel + 1) data i out inserted = out ++ data.drop i := by
  have hlen1 : i + 1 < data.length := by
    by_contra hc
    push_neg at hc
    rw [List.getD_eq_default _ _ hc] at hm1
    omega
  have hno : ¬(i + 1 ≥ data.length ∨ data.getD i 0 ≠ 0xFF) :=
    not_or.mpr ⟨by omega, fun hc => hc hff⟩
  have htrunc : ∀ b : List Nat,
      (if i + 3 ≥ data.length then out ++ data.drop i
       else if i + 2 + (data.getD (i + 2) 0 * 256 + data.getD (i + 3) 0) > data.length
       then out ++ data.drop i else b) = out ++ data.drop i := by
    intro b
    by_cases h3 : i + 3 ≥ data.length
    · rw [if_pos h3]
    · rw [if_neg h3, if_pos (htr.resolve_left h3)]
  simp only [scanLoop]
  rw [if_neg (by omega : ¬ i ≥ data.length), if_neg hno]
  by_cases hE1 : data.getD (i + 1) 0 = 0xE1
  · rw [if_pos hE1]
    exact htrunc _
  rw [if_neg hE1]
  by_cases hE0 : data.getD (i + 1) 0 = 0xE0
  · rw [if_pos hE0]
    exact htrunc _
  rw [if_neg hE0, if_neg (fun hc => hm5 hc)]
  by_cases hEF : 0xE2 ≤ data.getD (i + 1) 0 ∧ data.getD (i + 1) 0 ≤ 0xEF
  · rw [if_pos hEF]
    exact htrunc _
  rw [if_neg hEF, if_pos ⟨⟨hm1, hm2⟩, hm3, hm4⟩]
  exact htrunc _

/-- Witness for truncation_copies_rest_verbatim: the scan standing at
offset 2 of SOI + overrunning APP0. -/
theorem truncation_copies_rest_verbatim_witness :
    (2 : Nat) < ([0xFF, 0xD8, 0xFF, 0xE0, 0x00, 0xFF] : List Nat).length ∧
    scanLoop [1, 2] 4 [0xFF, 0xD8, 0xFF, 0xE0, 0x00, 0xFF] 2 [0xFF, 0xD8] false
      = [0xFF, 0xD8] ++ List.drop 2 [0xFF, 0xD8, 0xFF, 0xE0, 0x00, 0xFF] :=
  ⟨by decide,
   truncation_copies_rest_verbatim [0xFF, 0xD8, 0xFF, 0xE0, 0x00, 0xFF] [1, 2]
     [0xFF, 0xD8] 2 3 false (by decide) (by decide) (by decide) (by decide)
     (by decide) (by decide) (by decide) (Or.inr (by decide))⟩

lemma scanLoop_step_sof (exif data out : List Nat) (i fuel : Nat) (inserted : Bool)
    (hlt : i + 1 < data.length) (hff : data.getD i 0 = 0xFF)
    (hm : data.getD (i + 1) 0 = 0xC0)
    (h3 : i + 3 < data.length)
    (hfit : i + 2 + (data.getD (i + 2) 0 * 256 + data.getD (i + 3) 0) ≤ data.length) :
    scanLoop exif (fuel + 1) data i out inserted
      = scanLoop exif fuel data
          (i + 2 + (data.getD (i + 2) 0 * 256 + data.getD (i + 3) 0))
          (out ++ (data.drop i).take (2 + (data.getD (i + 2) 0 * 256 + data.getD (i + 3) 0)))
          inserted := by
  simp only [scanLoop]
  rw [if_neg (by omega : ¬ i ≥ data.length),
    if_neg (not_or.mpr ⟨by omega, fun hc => hc hff⟩), hm]
  rw [if_neg (by decide : ¬(0xC0 : Nat) = 0xE1),
    if_neg (by decide : ¬(0xC0 : Nat) = 0xE0),
    if_neg (by decide : ¬(0xC0 : Nat) = 0xDA),
    if_neg (by decide : ¬((0xE2 : Nat) ≤ 0xC0 ∧ (0xC0 : Nat) ≤ 0xEF)),
    if_pos (by decide :
      ((0xC0 : Nat) ≤ 0xC0 ∧ (0xC0 : Nat) ≤ 0xFE) ∧
        (0xC0 : Nat) ≠ 0xD8 ∧ (0xC0 : Nat) ≠ 0xD9),
    if_neg (by omega : ¬ i + 3 ≥ data.length),
    if_neg (by omega :
      ¬ i + 2 + (data.getD (i + 2) 0 * 256 + data.getD (i + 3) 0) > data.length)]

lemma scanLoop_step_sos (exif data out : List Nat) (i fuel : Nat)
    (hlt : i + 1 < data.length) (hff : data.getD i 0 = 0xFF)
    (hm : data.getD (i + 1) 0 = 0xDA) :
    scanLoop exif (fuel + 1) data i out false
      = out ++ insert_exif exif ++ data.drop i := by
  simp only [scanLoop]
  rw [if_neg (by omega : ¬ i ≥ data.length),
    if_neg (not_or.mpr ⟨by omega, fun hc => hc hff⟩), hm]
  norm_num [List.append_assoc]

/-- C3 counterexample: on the JPEG made of SOI, a frame header (SOF0 with a
3-byte payload), SOS, one entropy byte and EOI, the rewriter emits the
frame header immediately after SOI and only then the new metadata segment
(`FF E1 00 03 AB`), directly before SOS — bytes 2..3 of the output are
FF C0, not the FF E1 that insertion immediately after start-of-image
would give. -/
theorem sof_before_insert_counterexample :
    update_jpeg_metadata
        [0xFF, 0xD8, 0xFF, 0xC0, 0x00, 0x05, 0x01, 0x02, 0x03, 0xFF, 0xDA, 0x00, 0xFF, 0xD9]
        [0xAB]
      = some [0xFF, 0xD8, 0xFF, 0xC0, 0x00, 0x05, 0x01, 0x02, 0x03,
              0xFF, 0xE1, 0x00, 0x03, 0xAB, 0xFF, 0xDA, 0x00, 0xFF, 0xD9] ∧
    [(0xFF : Nat), 0xD8, 0xFF, 0xC0] ≠ [0xFF, 0xD8] ++ (insert_exif [0xAB]).take 2 := by
  decide

/-- C3 (amended): on a JPEG of the form SOI, frame header (SOF0 marker with
matching declared length), SOS, arbitrary remaining bytes, the rewriter
copies the frame header verbatim and inserts the new metadata segment
immediately BEFORE the scan header — that is after the frame header, not
immediately after start-of-image. -/
theorem insert_before_scan_header (lhi llo : Nat) (payload rest exif : List Nat)
    (hL : lhi * 256 + llo = payload.length + 2) :
    update_jpeg_metadata
        ([0xFF, 0xD8, 0xFF, 0xC0, lhi, llo] ++ payload ++ [0xFF, 0xDA] ++ rest) exif
      = some ([0xFF, 0xD8, 0xFF, 0xC0, lhi, llo] ++ payload ++
          insert_exif exif ++ [0xFF, 0xDA] ++ rest) := by
  set data : List Nat :=
    [0xFF, 0xD8, 0xFF, 0xC0, lhi, llo] ++ payload ++ [0xFF, 0xDA] ++ rest with hdata
  have hlen : data.length = 8 + payload.length + rest.length := by
    simp [hdata]
    omega
  have hsplit : data
      = ([0xFF, 0xD8, 0xFF, 0xC0, lhi, llo] ++ payload) ++ ([0xFF, 0xDA] ++ rest) := by
    simp [hdata]
  have hAlen : ([(0xFF : Nat), 0xD8, 0xFF, 0xC0, lhi, llo] ++ payload).length
      = 6 + payload.length := by
    simp
    omega
  have hg0 : data.getD 0 0 = 0xFF := by simp [hdata]
  have hg1 : data.getD 1 0 = 0xD8 := by simp [hdata]
  have hg2 : data.getD 2 0 = 0xFF := by simp [hdata]
  have hg3 : data.getD 3 0 = 0xC0 := by simp [hdata]
  have hg4 : data.getD 4 0 = lhi := by simp [hdata]
  have hg5 : data.getD 5 0 = llo := by simp [hdata]
  have hg6 : data.getD (6 + payload.length) 0 = 0xFF := by
    rw [hsplit, List.getD_append_right _ _ _ _ hAlen.le, hAlen, Nat.sub_self]
    rfl
  have hg7 : data.getD (6 + payload.length + 1) 0 = 0xDA := by
    rw [hsplit, List.getD_append_right _ _ _ _ (by rw [hAlen]; omega), hAlen]
    have hs : 6 + payload.length + 1 - (6 + payload.length) = 1 := by omega
    rw [hs]
    rfl
  have hdrop2 : data.drop 2
      = ([0xFF, 0xC0, lhi, llo] ++ payload) ++ ([0xFF, 0xDA] ++ rest) := by
    simp [hdata]
  have hdrop6 : data.drop (6 + payload.length) = [0xFF, 0xDA] ++ rest := by
    rw [hsplit]
    exact List.drop_left' (by rw [hAlen])
  have htake2 : data.take 2 = [0xFF, 0xD8] := by simp [hdata]
  unfold update_jpeg_metadata
  rw [if_neg (not_or.mpr ⟨by omega,
    not_or.mpr ⟨fun hc => hc hg0, fun hc => hc hg1⟩⟩)]
  rw [htake2, hlen]
  have hfuel : 8 + payload.length + rest.length
      = 6 + payload.length + rest.length + 1 + 1 := by omega
  rw [hfuel]
  rw [scanLoop_step_sof exif data [0xFF, 0xD8] 2 (6 + payload.length + rest.length + 1)
    false (by omega) hg2 hg3 (by omega)
    (by rw [hg4, hg5]; omega)]
  rw [hg4, hg5, hdrop2]
  have hidx : 2 + 2 + (lhi * 256 + llo) = 6 + payload.length := by omega
  have htk : 2 + (lhi * 256 + llo) = 4 + payload.length := by omega
  rw [hidx, htk, List.take_left' (by simp; omega)]
  rw [scanLoop_step_sos exif data ([0xFF, 0xD8] ++ ([0xFF, 0xC0, lhi, llo] ++ payload))
    (6 + payload.length) (6 + payload.length + rest.length) (by omega) hg6 hg7]
  rw [hdrop6]
  simp [hdata]

/-- Witness for insert_before_scan_header: frame-header payload of three
bytes, one entropy byte and EOI after the scan-header marker. -/
theorem insert_before_scan_header_witness :
    (0 : Nat) * 256 + 5 = ([0x01, 0x02, 0x03] : List Nat).length + 2 ∧
    update_jpeg_metadata
        ([0xFF, 0xD8, 0xFF, 0xC0, 0, 5] ++ [0x01, 0x02, 0x03] ++ [0xFF, 0xDA] ++ [0x00, 0xFF, 0xD9])
        [0xCD]
      = some ([0xFF, 0xD8, 0xFF, 0xC0, 0, 5] ++ [0x01, 0x02, 0x03] ++
          insert_exif [0xCD] ++ [0xFF, 0xDA] ++ [0x00, 0xFF, 0xD9]) :=
  ⟨by decide,
   insert_before_scan_header 0 5 [0x01, 0x02, 0x03] [0x00, 0xFF, 0xD9] [0xCD] (by decide)⟩

lemma scanLoop_step_app1 (exif data out : List Nat) (i fuel : Nat) (inserted : Bool)
    (hff : data.getD i 0 = 0xFF) (hm : data.getD (i + 1) 0 = 0xE1)
    (hlt1 : i + 1 < data.length) (h3 : i + 3 < data.length)
    (hfit : i + 2 + (data.getD (i + 2) 0 * 256 + data.getD (i + 3) 0) ≤ data.length) :
    scanLoop exif (fuel + 1) data i out inserted
      = scanLoop exif fuel data
          (i + (2 + (data.getD (i + 2) 0 * 256 + data.getD (i + 3) 0))
             + (2 + (data.getD (i + 2) 0 * 256 + data.getD (i + 3) 0))) out inserted := by
  simp only [scanLoop]
  rw [if_neg (by omega : ¬ i ≥ data.length),
    if_neg (not_or.mpr ⟨by omega, fun hc => hc hff⟩), hm,
    if_pos rfl, if_neg (by omega : ¬ i + 3 ≥ data.length),
    if_neg (by omega :
      ¬ i + 2 + (data.getD (i + 2) 0 * 256 + data.getD (i + 3) 0) > data.length)]

set_option maxHeartbeats 1600000 in
lemma scanLoop_congr (exif : List Nat) :
    ∀ (fuel : Nat) (data data2 : List Nat) (i : Nat) (out : List Nat) (inserted : Bool),
      data.length = data2.length →
      data.drop i = data2.drop i →
      scanLoop exif fuel data i out inserted = scanLoop exif fuel data2 i out inserted := by
  intro fuel
  induction fuel with
  | zero =>
    intro data data2 i out inserted _ _
    rfl
  | succ f ih =>
    intro data data2 i out inserted hlen hdrop
    have hg : ∀ k, data.getD (i + k) 0 = data2.getD (i + k) 0 := by
      intro k
      rw [List.getD_eq_getElem?_getD, List.getD_eq_getElem?_getD,
        ← List.getElem?_drop, ← List.getElem?_drop, hdrop]
    have hgi : data.getD i 0 = data2.getD i 0 := by
      have h0 := hg 0
      simpa using h0
    have hdr : ∀ d, data.drop (i + d) = data2.drop (i + d) := by
      intro d
      rw [← List.drop_drop, ← List.drop_drop, hdrop]
    simp only [scanLoop]
    rw [hlen, hgi, hg 1, hg 2, hg 3, hdrop]
    set n := data2.length with hn
    set b := data2.getD i 0 with hb
    set m := data2.getD (i + 1) 0 with hm2
    set L := data2.getD (i + 2) 0 * 256 + data2.getD (i + 3) 0 with hL2
    set dr := List.drop i data2 with hdr2
    have ihL : scanLoop exif f data (i + 2 + L) (out ++ List.take (2 + L) dr) inserted
        = scanLoop exif f data2 (i + 2 + L) (out ++ List.take (2 + L) dr) inserted := by
      apply ih _ _ _ _ _ hlen
      have h2 := hdr (2 + L)
      rwa [← Nat.add_assoc] at h2
    by_cases h0 : i ≥ n
    · rw [if_pos h0, if_pos h0]
    rw [if_neg h0, if_neg h0]
    by_cases h1 : i + 1 ≥ n ∨ b ≠ 255
    · rw [if_pos h1, if_pos h1]
    rw [if_neg h1, if_neg h1]
    by_cases hE1 : m = 225
    · rw [if_pos hE1, if_pos hE1]
      by_cases h3 : i + 3 ≥ n
      · rw [if_pos h3, if_pos h3]
      rw [if_neg h3, if_neg h3]
      by_cases h4 : i + 2 + L > n
      · rw [if_pos h4, if_pos h4]
      rw [if_neg h4, if_neg h4]
      apply ih _ _ _ _ _ hlen
      have h2 := hdr ((2 + L) + (2 + L))
      rwa [← Nat.add_assoc] at h2
    rw [if_neg hE1, if_neg hE1]
    by_cases hE0 : m = 224
    · rw [if_pos hE0, if_pos hE0]
      by_cases h3 : i + 3 ≥ n
      · rw [if_pos h3, if_pos h3]
      rw [if_neg h3, if_neg h3]
      by_cases h4 : i + 2 + L > n
      · rw [if_pos h4, if_pos h4]
      rw [if_neg h4, if_neg h4]
      apply ih _ _ _ _ _ hlen
      have h2 := hdr (2 + L)
      rwa [← Nat.add_assoc] at h2
    rw [if_neg hE0, if_neg hE0]
    by_cases hDA : m = 218
    · rw [if_pos hDA, if_pos hDA]
    rw [if_neg hDA, if_neg hDA]
    by_cases hEF : 226 ≤ m ∧ m ≤ 239
    · rw [if_pos hEF, if_pos hEF]
      by_cases h3 : i + 3 ≥ n
      · rw [if_pos h3, if_pos h3]
      rw [if_neg h3, if_neg h3]
      by_cases h4 : i + 2 + L > n
      · rw [if_pos h4, if_pos h4]
      rw [if_neg h4, if_neg h4]
      exact ihL
    rw [if_neg hEF, if_neg hEF]
    by_cases hCF : (192 ≤ m ∧ m ≤ 254) ∧ m ≠ 216 ∧ m ≠ 217
    · rw [if_pos hCF, if_pos hCF]
      by_cases h3 : i + 3 ≥ n
      · rw [if_pos h3, if_pos h3]
      rw [if_neg h3, if_neg h3]
      by_cases h4 : i + 2 + L > n
      · rw [if_pos h4, if_pos h4]
      rw [if_neg h4, if_neg h4]
      exact ihL
    rw [if_neg hCF, if_neg hCF]
    exact ih _ _ _ _ _ hlen (hdr 1)

lemma app1_step_general (pre payload post exif out : List Nat)
    (lhi llo fuel : Nat) (inserted : Bool)
    (hL : lhi * 256 + llo = payload.length + 2) :
    scanLoop exif (fuel + 1) (pre ++ [0xFF, 0xE1, lhi, llo] ++ payload ++ post)
        pre.length out inserted
      = scanLoop exif fuel (pre ++ [0xFF, 0xE1, lhi, llo] ++ payload ++ post)
          (pre.length + (2 + (lhi * 256 + llo)) + (2 + (lhi * 256 + llo)))
          out inserted := by
  set data : List Nat := pre ++ [0xFF, 0xE1, lhi, llo] ++ payload ++ post with hdata
  have hassoc : data = pre ++ ([0xFF, 0xE1, lhi, llo] ++ (payload ++ post)) := by
    rw [hdata]
    simp [List.append_assoc]
  have hgk : ∀ k : Nat,
      data.getD (pre.length + k) 0
        = ([0xFF, 0xE1, lhi, llo] ++ (payload ++ post)).getD k 0 := by
    intro k
    rw [hassoc, List.getD_append_right _ _ _ _ (by omega : pre.length ≤ pre.length + k)]
    have hk : pre.length + k - pre.length = k := by omega
    rw [hk]
  have hgi : data.getD pre.length 0 = 0xFF := by
    have h0 := hgk 0
    simpa using h0
  have hg1 : data.getD (pre.length + 1) 0 = 0xE1 := by
    have h1 := hgk 1
    simpa using h1
  have hg2 : data.getD (pre.length + 2) 0 = lhi := by
    have h2 := hgk 2
    simpa using h2
  have hg3 : data.getD (pre.length + 3) 0 = llo := by
    have h3 := hgk 3
    simpa using h3
  have hlen : data.length = pre.length + 4 + payload.length + post.length := by
    rw [hdata]
    simp
    omega
  rw [scanLoop_step_app1 exif data out pre.length fuel inserted hgi hg1
    (by omega) (by omega) (by rw [hg2, hg3]; omega)]
  rw [hg2, hg3]

/-- C10: a well-formed APP1 (0xE1) segment the scan loop stands on is
unconditionally omitted: the loop continues with the accumulated output
unchanged (no byte of the segment is copied), and the scan result does not
depend on the segment payload at all — replacing the payload by any other
bytes of the same length (EXIF, XMP or anything else) gives the identical
result, so the payload is never inspected. (The continuation index reflects
the double advance of media.rs lines 91-92.) -/
theorem app1_dropped_payload_never_read
    (pre payload post exif out : List Nat) (lhi llo fuel : Nat) (inserted : Bool)
    (hL : lhi * 256 + llo = payload.length + 2) :
    (scanLoop exif (fuel + 1) (pre ++ [0xFF, 0xE1, lhi, llo] ++ payload ++ post)
        pre.length out inserted
      = scanLoop exif fuel (pre ++ [0xFF, 0xE1, lhi, llo] ++ payload ++ post)
          (pre.length + (2 + (lhi * 256 + llo)) + (2 + (lhi * 256 + llo)))
          out inserted) ∧
    (∀ payload2 : List Nat, payload2.length = payload.length →
      scanLoop exif (fuel + 1) (pre ++ [0xFF, 0xE1, lhi, llo] ++ payload ++ post)
          pre.length out inserted
        = scanLoop exif (fuel + 1) (pre ++ [0xFF, 0xE1, lhi, llo] ++ payload2 ++ post)
            pre.length out inserted) := by
  have hdgen : ∀ pl : List Nat, pl.length = payload.length →
      (pre ++ [0xFF, 0xE1, lhi, llo] ++ pl ++ post).drop
        (pre.length + (2 + (lhi * 256 + llo)) + (2 + (lhi * 256 + llo)))
      = post.drop (payload.length + 4) := by
    intro pl hpl
    have hre : pre ++ [0xFF, 0xE1, lhi, llo] ++ pl ++ post
        = (pre ++ [0xFF, 0xE1, lhi, llo] ++ pl) ++ post := by
      simp [List.append_assoc]
    have hA : (pre ++ [0xFF, 0xE1, lhi, llo] ++ pl).length
        = pre.length + (4 + payload.length) := by
      simp [hpl]
      omega
    rw [hre, show pre.length + (2 + (lhi * 256 + llo)) + (2 + (lhi * 256 + llo))
      = (pre ++ [0xFF, 0xE1, lhi, llo] ++ pl).length + (payload.length + 4) from by
        rw [hA]; omega]
    exact List.drop_append _
  refine ⟨app1_step_general pre payload post exif out lhi llo fuel inserted hL,
    fun payload2 h2 => ?_⟩
  rw [app1_step_general pre payload post exif out lhi llo fuel inserted hL,
    app1_step_general pre payload2 post exif out lhi llo fuel inserted (by omega)]
  apply scanLoop_congr
  · simp [h2]
  · rw [hdgen payload rfl, hdgen payload2 h2]

/-- Witness for app1_dropped_payload_never_read: the scan standing right
after SOI on an APP1 with two payload bytes, replaced by two other bytes. -/
theorem app1_dropped_payload_never_read_witness :
    ((0 : Nat) * 256 + 4 = ([0xAA, 0xBB] : List Nat).length + 2) ∧
    (scanLoop [7] (2 + 1) ([0xFF, 0xD8] ++ [0xFF, 0xE1, 0, 4] ++ [0xAA, 0xBB] ++ [0xFF, 0xD9])
        ([0xFF, 0xD8] : List Nat).length [0xFF, 0xD8] false
      = scanLoop [7] 2 ([0xFF, 0xD8] ++ [0xFF, 0xE1, 0, 4] ++ [0xAA, 0xBB] ++ [0xFF, 0xD9])
          (([0xFF, 0xD8] : List Nat).length + (2 + (0 * 256 + 4)) + (2 + (0 * 256 + 4)))
          [0xFF, 0xD8] false) ∧
    (scanLoop [7] (2 + 1) ([0xFF, 0xD8] ++ [0xFF, 0xE1, 0, 4] ++ [0xAA, 0xBB] ++ [0xFF, 0xD9])
        ([0xFF, 0xD8] : List Nat).length [0xFF, 0xD8] false
      = scanLoop [7] (2 + 1) ([0xFF, 0xD8] ++ [0xFF, 0xE1, 0, 4] ++ [0xCC, 0xDD] ++ [0xFF, 0xD9])
          ([0xFF, 0xD8] : List Nat).length [0xFF, 0xD8] false) :=
  ⟨by decide,
   (app1_dropped_payload_never_read [0xFF, 0xD8] [0xAA, 0xBB] [0xFF, 0xD9] [7]
     [0xFF, 0xD8] 0 4 2 false (by decide)).1,
   (app1_dropped_payload_never_read [0xFF, 0xD8] [0xAA, 0xBB] [0xFF, 0xD9] [7]
     [0xFF, 0xD8] 0 4 2 false (by decide)).2 [0xCC, 0xDD] (by decide)⟩

/-- Externally visible steps of update_png_metadata (media.rs lines 7-41)
in source order: open and read the input (lines 15-17), build the EXIF
block (19), decode the PNG header (21-22), create the output file (24) —
`File::create` truncates the destination, which is the source file itself
when no separate destination is given — write the PNG header (30), write
the eXIf chunk (33), decode the pixel stream (35-36), write the image data
(37) and finish (38). -/
inductive PngStep
  | openInput
  | readToEnd
  | buildExif
  | decodeHeader
  | createOutput
  | writeHeader
  | writeChunk
  | decodeFrame
  | writeImageData
  | finishOutput
deriving Repr, DecidableEq

/-- Modelled from the spec: the fallible external calls of the PNG path
(filesystem and the third-party png codec, neither part of src/) are
abstracted by an environment stating which of them succeed; the spec's
failure kinds IoError and EncodingError say any of them may fail. -/
structure PngEnv where
  open_ok : Bool
  read_ok : Bool
  exif_ok : Bool
  header_ok : Bool
  create_ok : Bool
  write_header_ok : Bool
  write_chunk_ok : Bool
  frame_ok : Bool
  write_image_ok : Bool
  finish_ok : Bool

/-- Success of one step under the environment. -/
def pngStepOk (env : PngEnv) : PngStep → Bool
  | .openInput => env.open_ok
  | .readToEnd => env.read_ok
  | .buildExif => env.exif_ok
  | .decodeHeader => env.header_ok
  | .createOutput => env.create_ok
  | .writeHeader => env.write_header_ok
  | .writeChunk => env.write_chunk_ok
  | .decodeFrame => env.frame_ok
  | .writeImageData => env.write_image_ok
  | .finishOutput => env.finish_ok

/-- Run a step sequence: each step is attempted in order and appended to
the trace; the first failing step (the Rust `?` operator) aborts the run. -/
def runPngSteps (env : PngEnv) : List PngStep → List PngStep × Bool
  | [] => ([], true)
  | s :: rest =>
    if pngStepOk env s then
      ((runPngSteps env rest).1.cons s, (runPngSteps env rest).2)
    else ([s], false)

/-- update_png_metadata (media.rs lines 7-41) as the ordered sequence of
external steps it attempts: the performed-step trace paired with overall
success. The essential structural fact is the position of createOutput
(line 24) before decodeFrame (line 36). -/
def update_png_metadata (env : PngEnv) : List PngStep × Bool :=
  runPngSteps env
    [.openInput, .readToEnd, .buildExif, .decodeHeader, .createOutput,
     .writeHeader, .writeChunk, .decodeFrame, .writeImageData, .finishOutput]

/-- C2 (evaluation at the failing run): when every call up to the pixel
decode succeeds but reader.next_frame fails — a PNG whose header parses but
whose pixel stream does not decode — the run fails, yet its trace already
holds createOutput: the destination (the source file itself on an in-place
update) was created and truncated before the output was fully assembled,
so the failing call leaves a truncated file behind, contrary to the
claim. -/
theorem png_truncates_source_before_decode :
    (update_png_metadata
      ⟨true, true, true, true, true, true, true, false, true, true⟩).2 = false ∧
    PngStep.createOutput ∈ (update_png_metadata
      ⟨true, true, true, true, true, true, true, false, true, true⟩).1 ∧
    (update_png_metadata
      ⟨true, true, true, true, true, true, true, false, true, true⟩).1
      = [.openInput, .readToEnd, .buildExif, .decodeHeader, .createOutput,
         .writeHeader, .writeChunk, .decodeFrame] := by
  decide

end MediaMetadataFix
